import Mathlib

/-!
Verification development for the squeeze-scanner service
(source: api/index.py).  The Python source is shallowly embedded:
machine floats are modelled as exact rationals, Python dictionaries
as association lists or Option-valued functions, and network calls as
oracle parameters.  All definitions are executable.
-/

namespace SqueezeScanner

/-- Model of the Python builtin int() applied to a float: truncation
toward zero. -/
def pyInt (q : ℚ) : ℤ := if 0 ≤ q then ⌊q⌋ else ⌈q⌉

/-- Round-half-to-even on rationals, the idealised form of the rounding
used by the Python builtin round(). -/
def roundHalfEven (q : ℚ) : ℤ :=
  let f : ℤ := ⌊q⌋
  let r : ℚ := q - f
  if r < 1/2 then f
  else if 1/2 < r then f + 1
  else if f % 2 = 0 then f else f + 1

/-- Model of round(x, n) from the source (idealised to exact rationals). -/
def pyRound (n : ℕ) (q : ℚ) : ℚ := (roundHalfEven (q * 10 ^ n) : ℚ) / 10 ^ n

/-- Python truthiness for an optional float: None and 0.0 are falsy. -/
def truthy : Option ℚ → Bool
  | none => false
  | some x => x != 0

/-- Short-interest style metrics as carried by the source in the
ortex_data dictionaries: each numeric field may be None (absent). -/
structure OrtexData where
  short_interest : Option ℚ
  utilization : Option ℚ
  cost_to_borrow : Option ℚ
  days_to_cover : Option ℚ
  data_quality : String
  source_endpoints : List String
  deriving Repr, DecidableEq

/-- All four numeric fields of a metrics record are populated. -/
def allPopulated (o : OrtexData) : Prop :=
  o.short_interest.isSome ∧ o.utilization.isSome ∧
    o.cost_to_borrow.isSome ∧ o.days_to_cover.isSome

instance (o : OrtexData) : Decidable (allPopulated o) := by
  unfold allPopulated; infer_instance

/-- The score_breakdown dictionary built by the scoring routine. -/
structure ScoreBreakdown where
  short_interest : ℤ
  utilization : ℤ
  cost_to_borrow : ℤ
  days_to_cover : ℤ
  momentum : ℤ
  deriving Repr, DecidableEq

/-- Return value of calculate_squeeze_score_optimized.  The except
branch of the source returns a dictionary without a score_breakdown
key, modelled by breakdown = none. -/
structure SqueezeOut where
  squeeze_score : ℤ
  squeeze_type : String
  risk_factors : List String
  breakdown : Option ScoreBreakdown
  deriving Repr, DecidableEq

/-- Embedding of calculate_squeeze_score_optimized.  The source reads
the four metric fields and multiplies them; if any of them is None the
multiplication raises TypeError, which the enclosing except turns into
the zero/Error result.  price_change_pct is always a float in the
source (price records always carry the key), so it is a plain rational
here. -/
def calculate_squeeze_score_optimized (o : OrtexData) (pcp : ℚ) : SqueezeOut :=
  match o.short_interest, o.utilization, o.cost_to_borrow, o.days_to_cover with
  | some si, some util, some ctb, some dtc =>
    let si_score : ℚ := min (si * 1.2) 35
    let util_score : ℚ := min (util * 0.25) 25
    let ctb_score : ℚ := min (ctb * 0.8) 20
    let dtc_score : ℚ := min (dtc * 1.5) 15
    let momentum_score : ℚ := if 0 < pcp then max (pcp * 0.3) 0 else 0
    let total : ℤ := pyInt (si_score + util_score + ctb_score + dtc_score + momentum_score)
    let risk_factors : List String :=
      (if 25 < si then ["EXTREME_SHORT_INTEREST"] else []) ++
      (if 90 < util then ["HIGH_UTILIZATION"] else []) ++
      (if 20 < ctb then ["HIGH_BORROWING_COSTS"] else [])
    let squeeze_type : String :=
      if 80 ≤ total then "Extreme Squeeze Risk"
      else if 65 ≤ total then "High Squeeze Risk"
      else if 45 ≤ total then "Moderate Squeeze Risk"
      else "Low Risk"
    ⟨total, squeeze_type, risk_factors,
      some ⟨pyInt si_score, pyInt util_score, pyInt ctb_score, pyInt dtc_score,
        pyInt momentum_score⟩⟩
  | _, _, _, _ => ⟨0, "Error", [], none⟩

/-- Return value of calculate_optimal_scan_size. -/
structure ScanPlan where
  optimal_size : ℤ
  estimated_time : ℚ
  timeout_risk : String
  recommended_min_score : ℤ
  deriving Repr, DecidableEq

/-- Embedding of calculate_optimal_scan_size.  The instance fields
performance_stats[avg_ticker_time] and
performance_stats[max_safe_batch_size] are passed explicitly. -/
def calculate_optimal_scan_size (avg_time : ℚ) (max_batch : ℤ)
    (requested_size : ℤ) (timeout_limit : ℚ) : ScanPlan :=
  let max_safe_size : ℤ := pyInt (timeout_limit / avg_time * 0.8)
  let optimal_size : ℤ := min requested_size (min max_safe_size max_batch)
  { optimal_size := optimal_size
    estimated_time := (optimal_size : ℚ) * avg_time
    timeout_risk :=
      if optimal_size ≤ 15 then "low" else if optimal_size ≤ 25 then "medium" else "high"
    recommended_min_score :=
      if 20 < optimal_size then 50 else if 10 < optimal_size then 30 else 0 }

/-- The static ticker_universe catalog of the handler, as an
association list (Python dictionaries preserve insertion order). -/
def ticker_universe : List (String × List String) :=
  [("top_meme_stocks",
    ["GME", "AMC", "BBBY", "SAVA", "VXRT", "CLOV", "SPRT", "IRNT",
     "DWAC", "PHUN", "PROG", "ATER", "BBIG", "MULN", "EXPR", "KOSS"]),
   ("high_short_interest",
    ["BYND", "PTON", "ROKU", "UPST", "AFRM", "HOOD", "COIN", "RIVN",
     "LCID", "NKLA", "PLUG", "BLNK", "QS", "GOEV", "RIDE", "WKHS"]),
   ("biotech_squeeze",
    ["BIIB", "GILD", "REGN", "BMRN", "ALNY", "SRPT", "IONS", "ARWR",
     "EDIT", "CRSP", "NTLA", "BEAM", "BLUE", "FOLD", "RARE", "KRYS"]),
   ("small_cap_movers",
    ["SPCE", "DKNG", "PENN", "FUBO", "WISH", "RBLX", "PLTR", "SNOW",
     "CRWD", "OKTA", "DDOG", "NET", "FSLY", "ESTC", "ZM", "DOCN"]),
   ("large_cap_samples",
    ["AAPL", "TSLA", "META", "NFLX", "NVDA", "GOOGL", "AMZN", "MSFT"])]

/-- ticker_universe.get(name, []), the lookup used by the estimator
and the category filter. -/
def categoryList (name : String) : List String :=
  ((ticker_universe.lookup name).getD [])

/-- Deduplication keeping first occurrences, the seen-set comprehension
that builds master_ticker_list. -/
def dedupFirstAux (seen : List String) : List String → List String
  | [] => []
  | x :: xs => if x ∈ seen then dedupFirstAux seen xs else x :: dedupFirstAux (x :: seen) xs

/-- Deduplication keeping first occurrences. -/
def dedupFirst (l : List String) : List String := dedupFirstAux [] l

/-- The flattened, deduplicated master ticker list of the handler. -/
def master_ticker_list : List String :=
  dedupFirst ((ticker_universe.map Prod.snd).flatten)

/-- The hand-tuned squeeze_profiles table of generate_smart_mock_data:
symbol to (si, util, ctb, dtc). -/
def squeeze_profiles : List (String × ℚ × ℚ × ℚ × ℚ) :=
  [("GME", (22.4, 89.2, 12.8, 4.1)),
   ("AMC", (18.7, 82.1, 8.9, 3.8)),
   ("SAVA", (35.2, 95.1, 45.8, 12.3)),
   ("VXRT", (28.9, 87.6, 18.2, 8.7)),
   ("BBBY", (42.1, 98.2, 78.5, 15.8)),
   ("BYND", (31.5, 91.7, 25.3, 9.2)),
   ("PTON", (26.8, 84.5, 15.7, 6.8))]

/-- The four numeric fields produced by generate_smart_mock_data for a
single ticker.  hashF models the per-process builtin hash on strings
(CPython salts string hashing per process, so hashF is a parameter of
the model rather than a fixed function); stream models the Mersenne
Twister: stream seed i is the i-th output in [0, 1) of the generator
after random.seed(seed), so random.uniform(a, b) is
a + (b - a) * stream seed i. -/
def generateFields (hashF : String → ℤ) (stream : ℤ → ℕ → ℚ)
    (ticker : String) : ℚ × ℚ × ℚ × ℚ :=
  match squeeze_profiles.lookup ticker with
  | some (si, util, ctb, dtc) => (si, util, ctb, dtc)
  | none =>
    let seed : ℤ := hashF ticker % 10000
    let uniform : ℚ → ℚ → ℕ → ℚ := fun lo hi i => lo + (hi - lo) * stream seed i
    let bases : ℚ × ℚ × ℚ :=
      if ticker ∈ categoryList "top_meme_stocks" then
        (uniform 15 35 0, uniform 75 95 1, uniform 10 40 2)
      else if ticker ∈ categoryList "biotech_squeeze" then
        (uniform 20 40 0, uniform 80 98 1, uniform 15 60 2)
      else if ticker ∈ categoryList "large_cap_samples" then
        (uniform 1 6 0, uniform 20 50 1, uniform 0.5 3 2)
      else
        (uniform 8 25 0, uniform 50 85 1, uniform 3 20 2)
    (pyRound 1 bases.1, pyRound 1 bases.2.1, pyRound 1 bases.2.2,
      pyRound 1 (bases.1 * uniform 0.2 0.5 3))

/-- generate_smart_mock_data restricted to one ticker.  Each loop
iteration of the source reseeds the global generator before drawing,
so the per-ticker records are independent. -/
def generateOne (hashF : String → ℤ) (stream : ℤ → ℕ → ℚ)
    (ticker : String) : OrtexData :=
  let f := generateFields hashF stream ticker
  { short_interest := some f.1
    utilization := some f.2.1
    cost_to_borrow := some f.2.2.1
    days_to_cover := some f.2.2.2
    data_quality := "smart_mock"
    source_endpoints := ["enhanced_mock"] }

/-- Embedding of generate_smart_mock_data over a list of tickers. -/
def generate_smart_mock_data (hashF : String → ℤ) (stream : ℤ → ℕ → ℚ)
    (tickers : List String) : List (String × OrtexData) :=
  tickers.map (fun t => (t, generateOne hashF stream t))

/-- A JSON dictionary value as inspected by process_ortex_json_fast:
only int/float entries are read, everything else is skipped. -/
inductive PyVal where
  | num (q : ℚ)
  | other
  deriving Repr, DecidableEq

/-- Whether needle occurs as a contiguous substring of hay, the
Python in-operator on strings. -/
def containsSub (needle : List Char) : List Char → Bool
  | [] => needle.isEmpty
  | c :: rest => needle.isPrefixOf (c :: rest) || containsSub needle rest

/-- One iteration of the key-matching loop of process_ortex_json_fast:
fuzzy, case-insensitive substring matching of the key.  str.lower() is
modelled per character (the provider keys are ASCII). -/
def applyOrtexEntry (acc : OrtexData) (kv : String × PyVal) : OrtexData :=
  match kv.2 with
  | PyVal.num v =>
    let k := kv.1.toList.map Char.toLower
    if containsSub "short_interest".toList k || containsSub "si".toList k then
      { acc with short_interest := some v }
    else if containsSub "utilization".toList k || containsSub "util".toList k then
      { acc with utilization := some v }
    else if containsSub "cost_to_borrow".toList k || containsSub "ctb".toList k then
      { acc with cost_to_borrow := some v }
    else if containsSub "days_to_cover".toList k || containsSub "dtc".toList k then
      { acc with days_to_cover := some v }
    else acc
  | PyVal.other => acc

/-- The estimate backfill at the end of process_ortex_json_fast.  Each
guard uses Python truthiness, so a field equal to 0.0 counts as
missing, and nothing is derived unless short_interest is truthy. -/
def backfillOrtex (p : OrtexData) : OrtexData :=
  let p :=
    if truthy p.short_interest && !truthy p.utilization then
      { p with utilization := some (min ((p.short_interest.getD 0) * 3.5) 95) }
    else p
  let p :=
    if truthy p.short_interest && !truthy p.days_to_cover then
      { p with days_to_cover := some (max ((p.short_interest.getD 0) * 0.2) 0.8) }
    else p
  let p :=
    if truthy p.short_interest && !truthy p.cost_to_borrow then
      { p with cost_to_borrow := some (max ((p.short_interest.getD 0) * 0.4) 1.0) }
    else p
  p

/-- Embedding of process_ortex_json_fast on a JSON dictionary given as
an ordered list of key/value entries. -/
def process_ortex_json_fast (entries : List (String × PyVal)) : OrtexData :=
  backfillOrtex (entries.foldl applyOrtexEntry
    ⟨none, none, none, none, "live_ortex", ["ortex_fast"]⟩)

/-- A successful price record as built by get_single_price_fast. -/
structure PriceRec where
  ticker : String
  current_price : ℚ
  price_change : ℚ
  price_change_pct : ℚ
  volume : ℚ
  deriving Repr, DecidableEq

/-- The meta dictionary of a Yahoo chart payload as read by
get_single_price_fast; each field defaults to 0 via dict.get. -/
structure YahooMeta where
  regularMarketPrice : Option ℚ
  previousClose : Option ℚ
  regularMarketVolume : Option ℚ
  deriving Repr, DecidableEq

/-- The arithmetic core of get_single_price_fast on a well-formed
payload.  The guards on previous_close are Python float truthiness:
the division is performed only when previous_close is nonzero. -/
def get_single_price_fast (ticker : String) (meta : YahooMeta) : PriceRec :=
  let current_price : ℚ := meta.regularMarketPrice.getD 0
  let previous_close : ℚ := meta.previousClose.getD 0
  let volume : ℚ := meta.regularMarketVolume.getD 0
  let price_change : ℚ := if previous_close ≠ 0 then current_price - previous_close else 0
  let price_change_pct : ℚ := if previous_close ≠ 0 then price_change / previous_close * 100 else 0
  { ticker := ticker
    current_price := pyRound 2 current_price
    price_change := pyRound 2 price_change
    price_change_pct := pyRound 2 price_change_pct
    volume := volume }

/-- One event observed by the collection loop of
get_yahoo_price_data_fast.  completed t r: as_completed yielded the
future for t and future.result produced r (some p for a success
record, none when the record had success False or future.result
raised, both skipped by the inner try/except).  aggregateTimeout: the
30-second deadline of as_completed expired with futures still
outstanding, so the iterator itself raises TimeoutError. -/
inductive YahooEvent where
  | completed (ticker : String) (result : Option PriceRec)
  | aggregateTimeout
  deriving Repr, DecidableEq

/-- The collection loop of get_yahoo_price_data_fast.  The inner
try/except wraps only the loop body, so an exception raised by the
as_completed iterator at the for statement propagates out of the
function and the accumulated mapping is lost. -/
def priceFetchLoop : List YahooEvent → List (String × PriceRec) →
    Except String (List (String × PriceRec))
  | [], acc => Except.ok acc
  | YahooEvent.completed t r :: evs, acc =>
    priceFetchLoop evs (acc ++ (match r with | some p => [(t, p)] | none => []))
  | YahooEvent.aggregateTimeout :: _, _ =>
    Except.error "concurrent.futures.TimeoutError"

/-- Embedding of get_yahoo_price_data_fast over the trace of events
its loop observes. -/
def get_yahoo_price_data_fast (events : List YahooEvent) :
    Except String (List (String × PriceRec)) :=
  priceFetchLoop events []

/-- Stable descending insertion of an element that originally precedes
every element of the already-sorted list: on ties the new element
stays first. -/
def insertDesc (key : α → ℤ) (x : α) : List α → List α
  | [] => [x]
  | y :: ys => if key y ≤ key x then x :: y :: ys else y :: insertDesc key x ys

/-- Model of list.sort(key=..., reverse=True): the Python sort is
documented stable, and a stable descending sort has a unique output,
so stable insertion sort is an exact model. -/
def sortDesc (key : α → ℤ) : List α → List α
  | [] => []
  | x :: xs => insertDesc key x (sortDesc key xs)

/-- Python slicing l[:n], including the negative-n case that drops
elements from the end. -/
def pySliceTo (l : List α) (n : ℤ) : List α :=
  if 0 ≤ n then l.take n.toNat else l.take (l.length - (-n).toNat)

/-- The filters dictionary of a scan request when it is truthy.  A
missing or empty categories entry is modelled by the empty list (both
are falsy in the source); max_tickers defaults to 20 via dict.get. -/
structure Filters where
  categories : List String
  max_tickers : ℤ
  deriving Repr, DecidableEq

/-- Everything a single scan invocation depends on: request fields,
the current calibration state, and oracles for the two network feeds,
the per-process string hash and the seeded generator stream.  price t
is the mapping entry produced for t by the price feed (none when the
fetch failed and the ticker was skipped); ortexFetch t is the value of
get_fast_ortex_data for t (none when every endpoint failed). -/
structure ScanEnv where
  ortex_key : String
  filters : Option Filters
  avg_ticker_time : ℚ
  max_safe_batch_size : ℤ
  price : String → Option PriceRec
  ortexFetch : String → Option OrtexData
  hashF : String → ℤ
  stream : ℤ → ℕ → ℚ
  elapsed : ℚ

/-- The symbol selection of perform_optimized_scan.  list(set(...)) is
modelled as first-occurrence deduplication; no theorem below depends
on the (unspecified) ordering Python would produce there. -/
def scanTickers (env : ScanEnv) : List String :=
  match env.filters with
  | none => master_ticker_list.take 15
  | some f =>
    let base :=
      if f.categories ≠ [] then
        dedupFirst ((f.categories.map categoryList).flatten)
      else master_ticker_list
    pySliceTo base
      ((calculate_optimal_scan_size env.avg_ticker_time env.max_safe_batch_size
        f.max_tickers 45).optimal_size)

/-- The tickers for which the price feed returned a record. -/
def successfulTickers (env : ScanEnv) : List String :=
  (scanTickers env).filter (fun t => (env.price t).isSome)

/-- The live Ortex stage: attempted only when a credential is present
and at most 10 tickers have prices, and then only for the first 5
priced tickers. -/
def liveOrtex (env : ScanEnv) (t : String) : Option OrtexData :=
  if env.ortex_key ≠ "" ∧ (successfulTickers env).length ≤ 10 ∧
      t ∈ (successfulTickers env).take 5 then
    env.ortexFetch t
  else none

/-- The ortex_data entry for a priced ticker after the backfill step:
live data is kept (retagged live_ortex), every other ticker gets the
synthetic record. -/
def ortexMerged (env : ScanEnv) (t : String) : OrtexData :=
  match liveOrtex env t with
  | some m => { m with data_quality := "live_ortex" }
  | none => generateOne env.hashF env.stream t

/-- One entry of the results list of perform_optimized_scan. -/
structure TickerResult where
  ticker : String
  squeeze_score : ℤ
  squeeze_type : String
  current_price : ℚ
  price_change : ℚ
  price_change_pct : ℚ
  volume : ℚ
  ortex : OrtexData
  risk_factors : List String
  data_quality : String
  deriving Repr, DecidableEq

/-- price_data[ticker]; the default is never reached because results
are only built for tickers whose fetch succeeded. -/
def priceOf (env : ScanEnv) (t : String) : PriceRec :=
  (env.price t).getD ⟨t, 0, 0, 0, 0⟩

/-- The results list before sorting, in original selection order. -/
def preResults (env : ScanEnv) : List TickerResult :=
  (successfulTickers env).map (fun t =>
    let p := priceOf env t
    let o := ortexMerged env t
    let m := calculate_squeeze_score_optimized o p.price_change_pct
    { ticker := t
      squeeze_score := m.squeeze_score
      squeeze_type := m.squeeze_type
      current_price := p.current_price
      price_change := p.price_change
      price_change_pct := p.price_change_pct
      volume := p.volume
      ortex := o
      risk_factors := m.risk_factors
      data_quality := o.data_quality })

/-- The ranked results list. -/
def sortedResults (env : ScanEnv) : List TickerResult :=
  sortDesc (fun r => r.squeeze_score) (preResults env)

/-- The scan_stats dictionary of perform_optimized_scan. -/
structure ScanStats where
  total_tickers_scanned : ℕ
  successful_analysis : ℕ
  live_ortex_count : ℕ
  scan_time_seconds : ℚ
  performance_rating : String
  top_score : ℤ
  deriving Repr, DecidableEq

/-- Return value of perform_optimized_scan, together with the
calibration estimate after the update step (the source writes it back
into performance_stats only when at least one result was analyzed). -/
structure ScanOutput where
  results : List TickerResult
  stats : ScanStats
  new_avg_ticker_time : ℚ

/-- Embedding of perform_optimized_scan. -/
def perform_optimized_scan (env : ScanEnv) : ScanOutput :=
  let results := sortedResults env
  { results := results
    stats :=
      { total_tickers_scanned := (scanTickers env).length
        successful_analysis := results.length
        live_ortex_count :=
          (results.filter (fun r => r.data_quality == "live_ortex")).length
        scan_time_seconds := pyRound 1 env.elapsed
        performance_rating :=
          if env.elapsed < 15 then "excellent"
          else if env.elapsed < 30 then "good" else "acceptable"
        top_score := match results with | [] => 0 | r :: _ => r.squeeze_score }
    new_avg_ticker_time :=
      if 0 < results.length then env.elapsed / (results.length : ℚ)
      else env.avg_ticker_time }

/-- The success response assembled by handle_optimized_scan (the
human-readable message field is presentation only and omitted). -/
structure ScanResponse where
  success : Bool
  scan_results : List TickerResult
  scan_stats : ScanStats
  optimization_info : ScanPlan
  new_avg_ticker_time : ℚ

/-- Embedding of the non-error path of handle_optimized_scan: compute
the optimization recommendation for the requested size, run the scan,
and wrap both in a success = true response. -/
def handle_optimized_scan (env : ScanEnv) : ScanResponse :=
  let requested_size : ℤ := ((env.filters.map Filters.max_tickers).getD 20)
  let optimization :=
    calculate_optimal_scan_size env.avg_ticker_time env.max_safe_batch_size
      requested_size 45
  let scan := perform_optimized_scan env
  { success := true
    scan_results := scan.results
    scan_stats := scan.stats
    optimization_info := optimization
    new_avg_ticker_time := scan.new_avg_ticker_time }

/-! ### Concrete instances used by witnesses and counterexamples -/

/-- The hand-tuned GME record as produced by generate_smart_mock_data. -/
def gmeMock : OrtexData :=
  { short_interest := some 22.4
    utilization := some 89.2
    cost_to_borrow := some 12.8
    days_to_cover := some 4.1
    data_quality := "smart_mock"
    source_endpoints := ["enhanced_mock"] }

/-- A trivial process hash, standing for the salted builtin string
hash of one interpreter process. -/
def hashRunA : String → ℤ := fun _ => 0

/-- A second process hash differing from hashRunA, standing for the
salted builtin string hash of another interpreter process. -/
def hashRunB : String → ℤ := fun _ => 1

/-- A concrete seeded generator stream (the same pseudo-random
algorithm in both runs, as with the Mersenne Twister). -/
def streamMT : ℤ → ℕ → ℚ := fun s i => (((s + i) % 10 : ℤ) : ℚ) / 10

/-- An all-zero generator stream. -/
def streamZero : ℤ → ℕ → ℚ := fun _ _ => 0

/-- A well-formed live Ortex JSON payload carrying only a utilization
figure and no short-interest field. -/
def utilOnlyPayload : List (String × PyVal) := [("utilization", PyVal.num 50)]

/-- A price record for a given ticker used by concrete environments. -/
def plainPrice (t : String) : PriceRec :=
  { ticker := t, current_price := 100, price_change := 0, price_change_pct := 0, volume := 1000 }

/-- Environment in which GME alone has a live price and the live
short-interest feed answers with the utilization-only payload. -/
def envC6 : ScanEnv :=
  { ortex_key := "key"
    filters := none
    avg_ticker_time := 2.5
    max_safe_batch_size := 20
    price := fun t => if t = "GME" then some (plainPrice "GME") else none
    ortexFetch := fun t =>
      if t = "GME" then some (process_ortex_json_fast utilOnlyPayload) else none
    hashF := hashRunA
    stream := streamZero
    elapsed := 10 }

/-- Environment with no credential. -/
def envNoKey : ScanEnv := { envC6 with ortex_key := "" }

/-- Environment whose category filter names only a category absent
from the ticker universe. -/
def envAbsCat : ScanEnv :=
  { ortex_key := ""
    filters := some { categories := ["missing_category"], max_tickers := 20 }
    avg_ticker_time := 2.5
    max_safe_batch_size := 20
    price := fun _ => none
    ortexFetch := fun _ => none
    hashF := hashRunA
    stream := streamZero
    elapsed := 1 }

/-- Ten tickers that respond before the aggregate deadline. -/
def c2Tickers : List String :=
  ["GME", "AMC", "BBBY", "SAVA", "VXRT", "CLOV", "SPRT", "IRNT", "DWAC", "PHUN"]

/-- Event trace of a price fetch of 20 symbols in which 10 complete
successfully and the 30-second aggregate deadline then expires with
the other 10 still outstanding. -/
def c2Events : List YahooEvent :=
  c2Tickers.map (fun t => YahooEvent.completed t (some (plainPrice t))) ++
    [YahooEvent.aggregateTimeout]

/-! ### General lemmas about the helpers -/

theorem truthy_isSome {x : Option ℚ} (h : truthy x = true) : x.isSome := by
  cases x <;> simp [truthy] at h ⊢

theorem pyInt_eq_floor {q : ℚ} (h : 0 ≤ q) : pyInt q = ⌊q⌋ := by
  simp [pyInt, h]

theorem insertDesc_cons (key : α → ℤ) (x y : α) (ys : List α) :
    insertDesc key x (y :: ys) =
      if key y ≤ key x then x :: y :: ys else y :: insertDesc key x ys := rfl

theorem mem_insertDesc {key : α → ℤ} {x a : α} {l : List α} :
    a ∈ insertDesc key x l ↔ a = x ∨ a ∈ l := by
  induction l with
  | nil => simp [insertDesc]
  | cons y ys ih =>
    rw [insertDesc_cons]
    by_cases h : key y ≤ key x
    · rw [if_pos h]
      simp
    · rw [if_neg h]
      simp only [List.mem_cons, ih]
      tauto

theorem insertDesc_perm (key : α → ℤ) (x : α) (l : List α) :
    List.Perm (insertDesc key x l) (x :: l) := by
  induction l with
  | nil => exact List.Perm.refl _
  | cons y ys ih =>
    rw [insertDesc_cons]
    by_cases h : key y ≤ key x
    · rw [if_pos h]
    · rw [if_neg h]
      exact (ih.cons y).trans (List.Perm.swap x y ys)

theorem sortDesc_perm (key : α → ℤ) (l : List α) : List.Perm (sortDesc key l) l := by
  induction l with
  | nil => exact List.Perm.refl _
  | cons x xs ih => exact (insertDesc_perm key x (sortDesc key xs)).trans (ih.cons x)

theorem insertDesc_pairwise {key : α → ℤ} {x : α} {l : List α}
    (h : List.Pairwise (fun a b => key b ≤ key a) l) :
    List.Pairwise (fun a b => key b ≤ key a) (insertDesc key x l) := by
  induction l with
  | nil => simp [insertDesc]
  | cons y ys ih =>
    rcases List.pairwise_cons.mp h with ⟨hy, hys⟩
    rw [insertDesc_cons]
    by_cases hc : key y ≤ key x
    · rw [if_pos hc]
      refine List.pairwise_cons.mpr ⟨?_, h⟩
      intro z hz
      rcases List.mem_cons.mp hz with rfl | hz
      · exact hc
      · exact (hy z hz).trans hc
    · rw [if_neg hc]
      refine List.pairwise_cons.mpr ⟨?_, ih hys⟩
      intro z hz
      rcases mem_insertDesc.mp hz with rfl | hz
      · exact le_of_not_le hc
      · exact hy z hz

theorem sortDesc_pairwise (key : α → ℤ) (l : List α) :
    List.Pairwise (fun a b => key b ≤ key a) (sortDesc key l) := by
  induction l with
  | nil => simp [sortDesc]
  | cons x xs ih => exact insertDesc_pairwise ih

theorem filter_insertDesc_eq {key : α → ℤ} {x : α} {c : ℤ} (l : List α)
    (hx : key x = c) :
    (insertDesc key x l).filter (fun a => key a == c) =
      x :: l.filter (fun a => key a == c) := by
  induction l with
  | nil => simp [insertDesc, hx]
  | cons y ys ih =>
    rw [insertDesc_cons]
    by_cases hc : key y ≤ key x
    · rw [if_pos hc]
      rw [List.filter_cons_of_pos (by simp [hx])]
    · have hy : ¬ ((fun a => key a == c) y : Prop) := by
        simp only [beq_iff_eq]
        intro hyc
        exact hc (le_of_eq (hyc.trans hx.symm))
      rw [if_neg hc, List.filter_cons_of_neg (p := fun a => key a == c) hy, ih,
        List.filter_cons_of_neg (p := fun a => key a == c) hy]

theorem filter_insertDesc_ne {key : α → ℤ} {x : α} {c : ℤ} (l : List α)
    (hx : ¬ key x = c) :
    (insertDesc key x l).filter (fun a => key a == c) =
      l.filter (fun a => key a == c) := by
  induction l with
  | nil => simp [insertDesc, hx]
  | cons y ys ih =>
    rw [insertDesc_cons]
    by_cases hc : key y ≤ key x
    · rw [if_pos hc]
      rw [List.filter_cons_of_neg (by simpa using hx)]
    · rw [if_neg hc]
      by_cases hyc : key y = c
      · rw [List.filter_cons_of_pos (by simp [hyc]), List.filter_cons_of_pos (by simp [hyc]), ih]
      · rw [List.filter_cons_of_neg (by simpa using hyc),
          List.filter_cons_of_neg (by simpa using hyc), ih]

/-- Stability of the descending sort: each equal-key class keeps its
original relative order. -/
theorem sortDesc_filter (key : α → ℤ) (c : ℤ) (l : List α) :
    (sortDesc key l).filter (fun a => key a == c) =
      l.filter (fun a => key a == c) := by
  induction l with
  | nil => rfl
  | cons x xs ih =>
    by_cases hx : key x = c
    · rw [sortDesc, filter_insertDesc_eq _ hx, ih, List.filter_cons]
      simp [hx]
    · rw [sortDesc, filter_insertDesc_ne _ hx, ih, List.filter_cons]
      simp [hx]

theorem lookup_eq_none_of_not_mem_keys {α : Type} (l : List (String × α))
    (c : String) (h : c ∉ l.map Prod.fst) : l.lookup c = none := by
  induction l with
  | nil => rfl
  | cons p ps ih =>
    simp only [List.map_cons, List.mem_cons] at h
    push_neg at h
    have hne : (c == p.1) = false := by
      simpa [beq_iff_eq] using h.1
    simp [List.lookup, hne, ih h.2]

theorem lookup_generate {hashF : String → ℤ} {stream : ℤ → ℕ → ℚ}
    {ts : List String} {t : String} (h : t ∈ ts) :
    (generate_smart_mock_data hashF stream ts).lookup t =
      some (generateOne hashF stream t) := by
  induction ts with
  | nil => cases h
  | cons x xs ih =>
    rcases List.mem_cons.mp h with rfl | hx
    · simp [generate_smart_mock_data, List.lookup]
    · by_cases he : t = x
      · subst he; simp [generate_smart_mock_data, List.lookup]
      · have hne : (t == x) = false := by simpa [beq_iff_eq] using he
        simpa [generate_smart_mock_data, List.lookup, hne] using ih hx

theorem generateOne_data_quality (hashF : String → ℤ) (stream : ℤ → ℕ → ℚ)
    (t : String) : (generateOne hashF stream t).data_quality = "smart_mock" := rfl

theorem generateOne_populated (hashF : String → ℤ) (stream : ℤ → ℕ → ℚ)
    (t : String) : allPopulated (generateOne hashF stream t) := by
  simp [generateOne, allPopulated]

/-! ### Lemmas about the scan pipeline -/

theorem results_eq_sorted (env : ScanEnv) :
    (perform_optimized_scan env).results = sortedResults env := rfl

theorem mem_results_iff {env : ScanEnv} {r : TickerResult} :
    r ∈ (perform_optimized_scan env).results ↔ r ∈ preResults env :=
  (sortDesc_perm (fun r => r.squeeze_score) (preResults env)).mem_iff

theorem mem_preResults {env : ScanEnv} {r : TickerResult}
    (h : r ∈ preResults env) :
    ∃ t ∈ successfulTickers env, r.ticker = t ∧ r.ortex = ortexMerged env t ∧
      r.data_quality = (ortexMerged env t).data_quality := by
  rcases List.mem_map.mp h with ⟨t, ht, rfl⟩
  exact ⟨t, ht, rfl, rfl, rfl⟩

theorem liveOrtex_none_of_no_key {env : ScanEnv} (h : env.ortex_key = "")
    (t : String) : liveOrtex env t = none := by
  rw [liveOrtex, if_neg]
  intro hc
  exact hc.1 h

theorem liveOrtex_none_of_large {env : ScanEnv}
    (h : 10 < (successfulTickers env).length) (t : String) :
    liveOrtex env t = none := by
  rw [liveOrtex, if_neg]
  intro hc
  exact absurd hc.2.1 (not_le.mpr h)

theorem ortexMerged_of_no_key {env : ScanEnv} (h : env.ortex_key = "")
    (t : String) : ortexMerged env t = generateOne env.hashF env.stream t := by
  rw [ortexMerged, liveOrtex_none_of_no_key h]

theorem truthy_of_backfill {o : OrtexData}
    (h : truthy (backfillOrtex o).short_interest = true) :
    truthy o.short_interest = true := by
  have hsi : (backfillOrtex o).short_interest = o.short_interest := by
    rw [backfillOrtex]
    split <;> split <;> split <;> rfl
  rwa [hsi] at h

/-- If a processed Ortex record has a truthy short_interest, the
backfill heuristics leave every field populated. -/
theorem backfill_populated (o : OrtexData)
    (h : truthy (backfillOrtex o).short_interest = true) :
    allPopulated (backfillOrtex o) := by
  have hsi : truthy o.short_interest = true := truthy_of_backfill h
  rw [backfillOrtex]
  simp only [hsi, Bool.true_and]
  refine ⟨?_, ?_, ?_, ?_⟩ <;>
    · by_cases h1 : truthy o.utilization <;>
        by_cases h2 : truthy o.days_to_cover <;>
          by_cases h3 : truthy o.cost_to_borrow <;>
            simp [h1, h2, h3, truthy_isSome hsi, truthy_isSome, *]

theorem flatten_eq_nil_of_forall {L : List (List String)}
    (h : ∀ x ∈ L, x = []) : L.flatten = [] := by
  induction L with
  | nil => rfl
  | cons x xs ih =>
    rw [List.flatten_cons, h x (List.mem_cons_self x xs), List.nil_append]
    exact ih (fun y hy => h y (List.mem_cons_of_mem x hy))

/-! ### Claim theorems -/

/-- Claim C1, counterexample: the momentum component of
calculate_squeeze_score_optimized is uncapped, so the built-in GME
profile together with a price gain of 200 percent scores 125,
exceeding the claimed ceiling of 100. -/
theorem C1_counterexample :
    (calculate_squeeze_score_optimized (generateOne hashRunA streamZero "GME") 200).squeeze_score
        = 125 ∧
    ¬ (calculate_squeeze_score_optimized (generateOne hashRunA streamZero "GME") 200).squeeze_score
        ≤ 100 := by
  have hone : generateOne hashRunA streamZero "GME" = gmeMock := rfl
  have h : (calculate_squeeze_score_optimized gmeMock 200).squeeze_score = 125 := by
    norm_num [calculate_squeeze_score_optimized, gmeMock, pyInt, min_def, max_def]
  rw [hone, h]
  norm_num

/-- Claim C1 as amended: with all four metric fields present and
non-negative, total_score is an integer that is at least 0, and it is
at most 100 whenever price_change_pct is at most 50/3 (the point where
the uncapped momentum component reaches 5); beyond that bound the
score can exceed 100. -/
theorem C1_amended_bounds (si util ctb dtc pcp : ℚ) (dq : String) (se : List String)
    (h1 : 0 ≤ si) (h2 : 0 ≤ util) (h3 : 0 ≤ ctb) (h4 : 0 ≤ dtc) (h5 : pcp ≤ 50 / 3) :
    0 ≤ (calculate_squeeze_score_optimized
        ⟨some si, some util, some ctb, some dtc, dq, se⟩ pcp).squeeze_score ∧
    (calculate_squeeze_score_optimized
        ⟨some si, some util, some ctb, some dtc, dq, se⟩ pcp).squeeze_score ≤ 100 := by
  have hscore : (calculate_squeeze_score_optimized
      ⟨some si, some util, some ctb, some dtc, dq, se⟩ pcp).squeeze_score =
      pyInt (min (si * 1.2) 35 + min (util * 0.25) 25 + min (ctb * 0.8) 20 +
        min (dtc * 1.5) 15 + (if 0 < pcp then max (pcp * 0.3) 0 else 0)) := rfl
  set S : ℚ := min (si * 1.2) 35 + min (util * 0.25) 25 + min (ctb * 0.8) 20 +
    min (dtc * 1.5) 15 + (if 0 < pcp then max (pcp * 0.3) 0 else 0) with hSdef
  have hm0 : 0 ≤ (if 0 < pcp then max (pcp * 0.3) 0 else 0) := by
    split
    · exact le_max_right _ _
    · exact le_refl 0
  have hm5 : (if 0 < pcp then max (pcp * 0.3) 0 else 0) ≤ 5 := by
    split
    · exact max_le (by linarith) (by norm_num)
    · norm_num
  have hS0 : 0 ≤ S := by
    have a1 : 0 ≤ min (si * 1.2) 35 := le_min (by linarith) (by norm_num)
    have a2 : 0 ≤ min (util * 0.25) 25 := le_min (by linarith) (by norm_num)
    have a3 : 0 ≤ min (ctb * 0.8) 20 := le_min (by linarith) (by norm_num)
    have a4 : 0 ≤ min (dtc * 1.5) 15 := le_min (by linarith) (by norm_num)
    rw [hSdef]
    linarith
  have hS100 : S ≤ 100 := by
    have b1 : min (si * 1.2) 35 ≤ 35 := min_le_right _ _
    have b2 : min (util * 0.25) 25 ≤ 25 := min_le_right _ _
    have b3 : min (ctb * 0.8) 20 ≤ 20 := min_le_right _ _
    have b4 : min (dtc * 1.5) 15 ≤ 15 := min_le_right _ _
    rw [hSdef]
    linarith
  rw [hscore, pyInt_eq_floor hS0]
  refine ⟨Int.floor_nonneg.mpr hS0, ?_⟩
  calc ⌊S⌋ ≤ ⌊(100 : ℚ)⌋ := Int.floor_mono hS100
    _ = 100 := by norm_num

/-- Witness for C1_amended_bounds at the GME profile with flat price. -/
theorem C1_amended_witness :
    0 ≤ (calculate_squeeze_score_optimized
        ⟨some 22.4, some 89.2, some 12.8, some 4.1, "smart_mock", ["enhanced_mock"]⟩
        0).squeeze_score ∧
    (calculate_squeeze_score_optimized
        ⟨some 22.4, some 89.2, some 12.8, some 4.1, "smart_mock", ["enhanced_mock"]⟩
        0).squeeze_score ≤ 100 :=
  C1_amended_bounds 22.4 89.2 12.8 4.1 0 "smart_mock" ["enhanced_mock"]
    (by norm_num) (by norm_num) (by norm_num) (by norm_num) (by norm_num)

/-- Claim C2: the claim describes the intended behaviour (partial
mapping, no error), but in the source the TimeoutError raised by the
as_completed iterator occurs at the for statement, outside the
try/except that sits inside the loop body, so it propagates to the
caller and the partial mapping is lost.  At the failing trace (10 of
20 symbols completed, deadline expires) the embedded loop semantics
yield an error, while the same completions without deadline expiry
yield exactly the 10-symbol mapping the claim expects. -/
theorem C2_timeout_error_escapes :
    get_yahoo_price_data_fast c2Events =
      Except.error "concurrent.futures.TimeoutError" ∧
    get_yahoo_price_data_fast
        (c2Tickers.map (fun t => YahooEvent.completed t (some (plainPrice t)))) =
      Except.ok (c2Tickers.map (fun t => (t, plainPrice t))) :=
  ⟨rfl, rfl⟩

/-- Claim C3, counterexample: the seed of the synthetic estimator is
the builtin hash of the symbol, which CPython salts per process, so
two runs of the program correspond to two different hash functions;
with the same generator algorithm, a non-profile symbol such as ROKU
then receives different metrics in the two runs. -/
theorem C3_counterexample :
    generateOne hashRunA streamMT "ROKU" ≠ generateOne hashRunB streamMT "ROKU" := by
  intro h
  have m1 : "ROKU" ∉ categoryList "top_meme_stocks" := by decide
  have m2 : "ROKU" ∉ categoryList "biotech_squeeze" := by decide
  have m3 : "ROKU" ∉ categoryList "large_cap_samples" := by decide
  have l0 : squeeze_profiles.lookup "ROKU" = none := rfl
  have h1 : (generateOne hashRunA streamMT "ROKU").short_interest = some 8 := by
    simp only [generateOne, generateFields, l0, if_neg m1, if_neg m2, if_neg m3]
    norm_num [pyRound, roundHalfEven, streamMT, hashRunA]
  have h2 : (generateOne hashRunB streamMT "ROKU").short_interest = some (97 / 10) := by
    simp only [generateOne, generateFields, l0, if_neg m1, if_neg m2, if_neg m3]
    norm_num [pyRound, roundHalfEven, streamMT, hashRunB]
  rw [h, h2] at h1
  norm_num at h1

/-- Claim C3 as amended: within one program run (one process hash and
one generator algorithm) the estimator is deterministic — the metrics
for a symbol do not depend on which batch it is generated in — and the
hand-tuned profile symbols get identical metrics even across runs. -/
theorem C3_amended_deterministic (hashF : String → ℤ) (stream : ℤ → ℕ → ℚ)
    (ts ts' : List String) (t : String) (h : t ∈ ts) (h' : t ∈ ts') :
    (generate_smart_mock_data hashF stream ts).lookup t =
      (generate_smart_mock_data hashF stream ts').lookup t ∧
    ∀ (hashG : String → ℤ) (streamG : ℤ → ℕ → ℚ) (p : String),
      p ∈ squeeze_profiles.map Prod.fst →
      generateOne hashF stream p = generateOne hashG streamG p := by
  refine ⟨?_, ?_⟩
  · rw [lookup_generate h, lookup_generate h']
  · intro hashG streamG p hp
    simp only [squeeze_profiles, List.map_cons, List.map_nil, List.mem_cons,
      List.not_mem_nil, or_false] at hp
    rcases hp with rfl | rfl | rfl | rfl | rfl | rfl | rfl <;> rfl

/-- Witness for C3_amended_deterministic: ROKU generated alone and
within a larger batch receives the same metrics. -/
theorem C3_amended_witness :
    (generate_smart_mock_data hashRunA streamMT ["ROKU"]).lookup "ROKU" =
      (generate_smart_mock_data hashRunA streamMT ["ROKU", "GME"]).lookup "ROKU" :=
  (C3_amended_deterministic hashRunA streamMT ["ROKU"] ["ROKU", "GME"] "ROKU"
    (by decide) (by decide)).1

/-- Claim C4: for positive inputs, the planner output is bounded by
both the requested size and the safe batch ceiling, is non-negative,
and inverting the 0.8 margin keeps the estimated work within the
timeout budget. -/
theorem C4_planner_bounds (avg : ℚ) (maxBatch requested : ℤ) (timeout : ℚ)
    (h1 : 0 < requested) (h2 : 0 < avg) (h3 : 0 < timeout) (h4 : 0 < maxBatch) :
    (calculate_optimal_scan_size avg maxBatch requested timeout).optimal_size ≤
        min requested maxBatch ∧
    0 ≤ (calculate_optimal_scan_size avg maxBatch requested timeout).optimal_size ∧
    ((calculate_optimal_scan_size avg maxBatch requested timeout).optimal_size : ℚ)
        * avg * 1.25 ≤ timeout := by
  have harg : 0 ≤ timeout / avg * 0.8 := by positivity
  have hopt : (calculate_optimal_scan_size avg maxBatch requested timeout).optimal_size =
      min requested (min (pyInt (timeout / avg * 0.8)) maxBatch) := rfl
  have hfloor : pyInt (timeout / avg * 0.8) = ⌊timeout / avg * 0.8⌋ :=
    pyInt_eq_floor harg
  refine ⟨?_, ?_, ?_⟩
  · rw [hopt]
    exact min_le_min (le_refl _) (min_le_right _ _)
  · rw [hopt]
    refine le_min h1.le (le_min ?_ h4.le)
    rw [hfloor]
    exact Int.floor_nonneg.mpr harg
  · rw [hopt]
    have h5 : min requested (min (pyInt (timeout / avg * 0.8)) maxBatch) ≤
        pyInt (timeout / avg * 0.8) :=
      le_trans (min_le_right _ _) (min_le_left _ _)
    have h6 : ((min requested (min (pyInt (timeout / avg * 0.8)) maxBatch) : ℤ) : ℚ) ≤
        timeout / avg * 0.8 := by
      refine le_trans ?_ (hfloor ▸ Int.floor_le (timeout / avg * 0.8))
      exact_mod_cast h5
    have h7 : ((min requested (min (pyInt (timeout / avg * 0.8)) maxBatch) : ℤ) : ℚ)
        * avg * 1.25 ≤ (timeout / avg * 0.8) * avg * 1.25 :=
      mul_le_mul_of_nonneg_right (mul_le_mul_of_nonneg_right h6 h2.le) (by norm_num)
    refine h7.trans (le_of_eq ?_)
    field_simp
    ring

/-- Witness for C4_planner_bounds at the default calibration
(2.5 seconds per ticker, batch cap 20, request 20, budget 45). -/
theorem C4_witness :
    (calculate_optimal_scan_size 2.5 20 20 45).optimal_size ≤ min 20 20 ∧
    0 ≤ (calculate_optimal_scan_size 2.5 20 20 45).optimal_size ∧
    ((calculate_optimal_scan_size 2.5 20 20 45).optimal_size : ℚ) * 2.5 * 1.25 ≤ 45 :=
  C4_planner_bounds 2.5 20 20 45 (by norm_num) (by norm_num) (by norm_num) (by norm_num)

/-- Claim C5: the built-in GME profile (regardless of hash and
generator, since the profile table takes precedence) scored with a
flat price yields total_score 65, the High risk tier (the string
"High Squeeze Risk" in the source) and no risk factors, with
breakdown 26/22/10/6/0. -/
theorem C5_gme_scenario (hashF : String → ℤ) (stream : ℤ → ℕ → ℚ) :
    generateOne hashF stream "GME" = gmeMock ∧
    calculate_squeeze_score_optimized (generateOne hashF stream "GME") 0 =
      { squeeze_score := 65
        squeeze_type := "High Squeeze Risk"
        risk_factors := []
        breakdown := some
          { short_interest := 26, utilization := 22, cost_to_borrow := 10,
            days_to_cover := 6, momentum := 0 } } := by
  refine ⟨rfl, ?_⟩
  have hone : generateOne hashF stream "GME" = gmeMock := rfl
  rw [hone]
  norm_num [calculate_squeeze_score_optimized, gmeMock, pyInt, min_def, max_def]

/-- Claim C6, counterexample: a live Ortex payload that parses as a
JSON dictionary but carries no short-interest figure (only a
utilization entry) is kept as the metrics of a scored symbol, with
short_interest, cost_to_borrow and days_to_cover all unset after the
backfill step — the derivation heuristics run only when
short_interest itself was found.  The symbol is still scored (via the
error path, score 0). -/
theorem C6_counterexample :
    (perform_optimized_scan envC6).results.map
        (fun r => (r.ticker, r.data_quality, r.ortex.short_interest,
          r.ortex.cost_to_borrow, r.ortex.days_to_cover,
          r.squeeze_score, r.squeeze_type)) =
      [("GME", "live_ortex", none, none, none, 0, "Error")] ∧
    ∀ r ∈ (perform_optimized_scan envC6).results, ¬ allPopulated r.ortex := by
  constructor
  · rfl
  · decide

/-- Claim C6 as amended: after the backfill step every scored symbol
with synthetic metrics has all four fields populated, and a symbol
with live metrics has all four populated provided the live payload
yielded a truthy short_interest (missing fields are then derived);
only a live payload lacking short_interest can leave fields unset. -/
theorem C6_amended_populated (env : ScanEnv) (entries : List (String × PyVal)) :
    (∀ r ∈ (perform_optimized_scan env).results,
      r.data_quality = "smart_mock" → allPopulated r.ortex) ∧
    (truthy (process_ortex_json_fast entries).short_interest = true →
      allPopulated (process_ortex_json_fast entries)) := by
  constructor
  · intro r hr hq
    rcases mem_preResults (mem_results_iff.mp hr) with ⟨t, ht, htick, hox, hdq⟩
    rw [hox]
    rw [hdq] at hq
    cases hl : liveOrtex env t with
    | none =>
      rw [ortexMerged, hl]
      exact generateOne_populated env.hashF env.stream t
    | some m =>
      exfalso
      simp [ortexMerged, hl] at hq
  · exact backfill_populated _

/-- Witness for C6_amended_populated: a live payload whose
short_interest was found gets every field populated. -/
theorem C6_amended_witness :
    allPopulated (process_ortex_json_fast [("short_interest", PyVal.num 30)]) :=
  (C6_amended_populated envC6 [("short_interest", PyVal.num 30)]).2 (by decide)

/-- Claim C7: the live short-interest feed is consulted exactly when a
credential is present and at most 10 symbols have live prices, and
then only for the first 5 priced symbols; with no credential every
scored symbol carries synthetic metrics and the live-data count is
zero. -/
theorem C7_live_feed_gating (env : ScanEnv) :
    (env.ortex_key = "" →
      (perform_optimized_scan env).stats.live_ortex_count = 0 ∧
      ∀ r ∈ (perform_optimized_scan env).results, r.data_quality = "smart_mock") ∧
    (∀ r ∈ (perform_optimized_scan env).results, r.data_quality = "live_ortex" →
      env.ortex_key ≠ "" ∧ (successfulTickers env).length ≤ 10 ∧
      r.ticker ∈ (successfulTickers env).take 5 ∧ (env.ortexFetch r.ticker).isSome) ∧
    (env.ortex_key ≠ "" → (successfulTickers env).length ≤ 10 →
      ∀ t ∈ (successfulTickers env).take 5, liveOrtex env t = env.ortexFetch t) ∧
    (∀ t, env.ortex_key = "" ∨ 10 < (successfulTickers env).length →
      liveOrtex env t = none) := by
  have hall : ∀ (h : env.ortex_key = "") (r : TickerResult),
      r ∈ (perform_optimized_scan env).results → r.data_quality = "smart_mock" := by
    intro h r hr
    rcases mem_preResults (mem_results_iff.mp hr) with ⟨t, ht, htick, hox, hdq⟩
    rw [hdq, ortexMerged_of_no_key h]
    rfl
  refine ⟨?_, ?_, ?_, ?_⟩
  · intro h
    refine ⟨?_, fun r hr => hall h r hr⟩
    show ((sortedResults env).filter (fun r => r.data_quality == "live_ortex")).length = 0
    have hnil : (sortedResults env).filter (fun r => r.data_quality == "live_ortex") = [] := by
      refine List.filter_eq_nil_iff.mpr ?_
      intro r hr
      rw [hall h r hr]
      decide
    rw [hnil]
    rfl
  · intro r hr hlive
    rcases mem_preResults (mem_results_iff.mp hr) with ⟨t, ht, htick, hox, hdq⟩
    rw [hdq] at hlive
    cases hl : liveOrtex env t with
    | none =>
      exfalso
      simp [ortexMerged, hl, generateOne] at hlive
    | some m =>
      rw [liveOrtex] at hl
      by_cases hc : env.ortex_key ≠ "" ∧ (successfulTickers env).length ≤ 10 ∧
          t ∈ (successfulTickers env).take 5
      · rw [if_pos hc] at hl
        rw [htick]
        exact ⟨hc.1, hc.2.1, hc.2.2, by rw [hl]; rfl⟩
      · rw [if_neg hc] at hl
        cases hl
  · intro h1 h2 t ht
    rw [liveOrtex, if_pos ⟨h1, h2, ht⟩]
  · intro t ht
    rcases ht with h | h
    · exact liveOrtex_none_of_no_key h t
    · exact liveOrtex_none_of_large h t

/-- Witness for C7_live_feed_gating: with an empty credential the
live-data count of a concrete scan is zero. -/
theorem C7_witness : (perform_optimized_scan envNoKey).stats.live_ortex_count = 0 :=
  ((C7_live_feed_gating envNoKey).1 rfl).1

/-- Claim C8: scan results are sorted by squeeze_score in descending
order, and the sort is stable — for each score value, the results
with that score appear exactly in their pre-sort (selection) order. -/
theorem C8_ranking_sorted_stable (env : ScanEnv) :
    List.Pairwise (fun a b => b.squeeze_score ≤ a.squeeze_score)
      (perform_optimized_scan env).results ∧
    ∀ c : ℤ, (perform_optimized_scan env).results.filter
        (fun r => r.squeeze_score == c) =
      (preResults env).filter (fun r => r.squeeze_score == c) := by
  refine ⟨sortDesc_pairwise _ _, fun c => sortDesc_filter _ c _⟩

/-- Claim C9: an absent or zero previous_close yields change_pct = 0
exactly; the division is guarded and never executed in that case. -/
theorem C9_zero_previous_close (ticker : String) (meta : YahooMeta)
    (h : meta.previousClose = none ∨ meta.previousClose = some 0) :
    (get_single_price_fast ticker meta).price_change_pct = 0 := by
  have hz : meta.previousClose.getD 0 = 0 := by
    rcases h with h | h <;> simp [h]
  norm_num [get_single_price_fast, hz, pyRound, roundHalfEven]

/-- Witness for C9_zero_previous_close at a concrete quote. -/
theorem C9_witness :
    (get_single_price_fast "AAPL"
      { regularMarketPrice := some 100, previousClose := some 0,
        regularMarketVolume := some 5 }).price_change_pct = 0 :=
  C9_zero_previous_close "AAPL"
    { regularMarketPrice := some 100, previousClose := some 0,
      regularMarketVolume := some 5 } (Or.inr rfl)

/-- Claim C10: a scan whose (non-empty) category filter names only
categories absent from the ticker universe selects zero symbols and
completes normally: success response, empty result list, zero analyzed
count, top score 0, and the calibration estimate is left unchanged. -/
theorem C10_absent_categories (env : ScanEnv) (f : Filters)
    (hf : env.filters = some f) (hne : f.categories ≠ [])
    (habs : ∀ c ∈ f.categories, c ∉ ticker_universe.map Prod.fst) :
    scanTickers env = [] ∧
    (handle_optimized_scan env).success = true ∧
    (handle_optimized_scan env).scan_results = [] ∧
    (handle_optimized_scan env).scan_stats.successful_analysis = 0 ∧
    (handle_optimized_scan env).scan_stats.top_score = 0 ∧
    (handle_optimized_scan env).new_avg_ticker_time = env.avg_ticker_time := by
  have hcat : ∀ x ∈ f.categories.map categoryList, x = [] := by
    intro x hx
    rcases List.mem_map.mp hx with ⟨c, hc, rfl⟩
    rw [categoryList, lookup_eq_none_of_not_mem_keys _ _ (habs c hc)]
    rfl
  have hflat : (f.categories.map categoryList).flatten = [] :=
    flatten_eq_nil_of_forall hcat
  have hsel : scanTickers env = [] := by
    simp only [scanTickers, hf, if_pos hne, hflat, ne_eq]
    simp [pySliceTo, dedupFirst, dedupFirstAux]
  have hsucc : successfulTickers env = [] := by
    rw [successfulTickers, hsel]
    rfl
  have hsort : sortedResults env = [] := by
    rw [sortedResults, preResults, hsucc]
    rfl
  refine ⟨hsel, rfl, ?_, ?_, ?_, ?_⟩ <;>
    simp [handle_optimized_scan, perform_optimized_scan, hsort]

/-- Witness for C10_absent_categories at a concrete request naming a
single unknown category. -/
theorem C10_witness :
    (handle_optimized_scan envAbsCat).success = true ∧
    (handle_optimized_scan envAbsCat).scan_results = [] :=
  ⟨(C10_absent_categories envAbsCat { categories := ["missing_category"], max_tickers := 20 }
      rfl (by decide) (by decide)).2.1,
    (C10_absent_categories envAbsCat { categories := ["missing_category"], max_tickers := 20 }
      rfl (by decide) (by decide)).2.2.1⟩

end SqueezeScanner
